import Mathlib

/-!
# Verification of the readmission-risk inference pipeline

Shallow embedding of the core inference pipeline of the Hospital-Graduation
backend (`src/Backend/app/utils/model.py`, `data_preprocessing.py`,
`config.py`): feature validation, encoding/scaling, risk tiering,
confidence, explanation (contributing factors) and recommendation
synthesis.  Python floats are modelled as rationals (`ℚ`); Python dicts of
request features as association lists; raised exceptions as `Except.error`.
-/

namespace Hospital

/-- A Python value appearing in a request record: a number or a string. -/
inductive PyVal where
  | num (q : ℚ)
  | str (s : String)
deriving DecidableEq, Repr

/-- A request record: a Python dict mapping feature names to values. -/
abbrev Record := List (String × PyVal)

/-- `data.get(k)` / `k in data`: first binding of key `k`, if any. -/
def Record.get : Record → String → Option PyVal
  | [], _ => none
  | p :: ps, k => if p.1 = k then some p.2 else Record.get ps k

/-- `Config.RISK_THRESHOLDS['low']` (config.py line 46). -/
def RISK_THRESHOLDS_low : ℚ := 3/10

/-- `Config.RISK_THRESHOLDS['medium']` (config.py line 47). -/
def RISK_THRESHOLDS_medium : ℚ := 6/10

/-- `Config.REQUIRED_FEATURES` (config.py lines 39-42). -/
def REQUIRED_FEATURES : List String :=
  ["age", "gender", "primary_diagnosis", "num_procedures",
   "days_in_hospital", "comorbidity_score", "discharge_to"]

/-- `DataPreprocessor.categorical_features` (data_preprocessing.py line 17). -/
def categorical_features : List String :=
  ["gender", "primary_diagnosis", "discharge_to"]

/-- `DataPreprocessor.numerical_features` (data_preprocessing.py line 18). -/
def numerical_features : List String :=
  ["age", "num_procedures", "days_in_hospital", "comorbidity_score"]

/-- `DataPreprocessor.required_features = numerical + categorical`
(data_preprocessing.py line 19). -/
def required_features : List String := numerical_features ++ categorical_features

/-- `ModelManager._determine_risk_level` (model.py lines 94-101),
parameterized by the two thresholds it reads from `self.risk_thresholds`. -/
def determine_risk_level (low medium p : ℚ) : String :=
  if p < low then "Low"
  else if p < medium then "Medium"
  else "High"

/-- `DataPreprocessor._get_risk_level` (data_preprocessing.py lines 186-192),
parameterized by the two thresholds it reads from `Config.RISK_THRESHOLDS`. -/
def get_risk_level (low medium p : ℚ) : String :=
  if p < low then "Low"
  else if p < medium then "Medium"
  else "High"

/-- The tier mapper at the configured thresholds (0.3 and 0.6). -/
def tier (p : ℚ) : String :=
  determine_risk_level RISK_THRESHOLDS_low RISK_THRESHOLDS_medium p

/-- `ModelManager._calculate_confidence` (model.py lines 103-108). -/
def calculate_confidence (p : ℚ) : ℚ := 1 - 2 * |1/2 - p|

/-- `', '.join(xs)` -/
def joinComma (xs : List String) : String := String.intercalate ", " xs

/-- Python `float(v)`: a number converts to itself; a non-numeric value
raises `ValueError` (numeric string literals are not exercised by the
pipeline's record schema and are modelled as the raising case). -/
def pyFloat : PyVal → Except String ℚ
  | .num q => .ok q
  | .str s => .error ("could not convert string to float: " ++ s)

/-- The raw numeric value used for feature `f`: `data.get(f, 0)` when it is
a number, `0` otherwise. -/
def rawNum (data : Record) (f : String) : ℚ :=
  match Record.get data f with
  | some (.num q) => q
  | _ => 0

/-- The categorical value looked up by `preprocess_features`:
`data.get(f, '')`.  A numeric value in a categorical slot is never equal to
any fitted string vocabulary entry; it is rendered to a string. -/
def catValue : Option PyVal → String
  | some (.str s) => s
  | some (.num q) => toString q
  | none => ""

/-- Effectful map over a list, stopping at the first error: the shape of
the Python `for` loops that build a list and may raise. -/
def exceptMap (g : α → Except String β) : List α → Except String (List β)
  | [] => .ok []
  | x :: xs => do
    let y ← g x
    let ys ← exceptMap g xs
    pure (y :: ys)

/-- `data[f]` read as a number inside the validator's range checks; a string
there raises `TypeError` in Python (modelled as an error), a missing key is
unreachable after the missing-features check. -/
def numValue (data : Record) (f : String) : Except String ℚ :=
  match Record.get data f with
  | some (.num q) => .ok q
  | some (.str _) => .error "TypeError: comparison of str and int"
  | none => .error "KeyError"

/-- `DataPreprocessor.validate_features` (data_preprocessing.py lines
45-87), parameterized by the fitted vocabularies (`label_encoders[f].classes_`).
Returns `(ok, message)`; an uncaught Python exception is `Except.error`. -/
def validate_features (encoders : String → List String) (data : Record) :
    Except String (Bool × String) :=
  let missing_features := required_features.filter (fun f => (Record.get data f).isNone)
  if missing_features.isEmpty = false then
    Except.ok (false, "Missing required features: " ++ joinComma missing_features)
  else do
    let age ← numValue data "age"
    let num_procedures ← numValue data "num_procedures"
    let days_in_hospital ← numValue data "days_in_hospital"
    let comorbidity_score ← numValue data "comorbidity_score"
    let validation_errors :=
      (if ¬ (0 ≤ age ∧ age ≤ 120) then ["Age must be between 0 and 120"] else []) ++
      (if num_procedures < 0 then ["Number of procedures cannot be negative"] else []) ++
      (if days_in_hospital < 0 then ["Days in hospital cannot be negative"] else []) ++
      (if comorbidity_score < 0 then ["Comorbidity score cannot be negative"] else []) ++
      (if catValue (Record.get data "gender") ∉ encoders "gender" then
        ["Gender must be one of: " ++ joinComma (encoders "gender")] else []) ++
      (if catValue (Record.get data "primary_diagnosis") ∉ encoders "primary_diagnosis" then
        ["Invalid primary diagnosis code"] else []) ++
      (if catValue (Record.get data "discharge_to") ∉ encoders "discharge_to" then
        ["Discharge destination must be one of: " ++ joinComma (encoders "discharge_to")] else [])
    if validation_errors.isEmpty = false then
      Except.ok (false, String.intercalate "; " validation_errors)
    else
      Except.ok (true, "")

/-- The `ValueError` message raised by `preprocess_features` on a category
outside the fitted vocabulary (data_preprocessing.py line 107). -/
def invalid_value_msg (feature value : String) (classes : List String) : String :=
  "Invalid value for " ++ feature ++ ": " ++ value ++ ". Valid values are: " ++ joinComma classes

/-- `LabelEncoder.transform([v])[0]`: the integer code of a label is its
index in the fitted vocabulary `classes_`; `none` models the `ValueError`
raised on a previously unseen label. -/
def label_index (classes : List String) (v : String) : Option ℕ :=
  match classes with
  | [] => none
  | c :: cs => if c = v then some 0 else (label_index cs v).map (· + 1)

/-- `StandardScaler.transform` on one row: per-column affine map
`(x - mean_i) / std_i` with the statistics fixed at training time. -/
def scale (means stds xs : List ℚ) : List ℚ :=
  xs.zipWith (fun x ms => (x - ms.1) / ms.2) (means.zip stds)

/-- `DataPreprocessor.preprocess_features` (data_preprocessing.py lines
89-115): numerical features via `float(data.get(f, 0))`, categorical
features via `label_encoders[f].transform([data.get(f, '')])` (the code of
a label is its index in the sorted vocabulary `classes_`), then scaling. -/
def preprocess_features (encoders : String → List String) (means stds : List ℚ)
    (data : Record) : Except String (List ℚ) := do
  let nums ← exceptMap (fun f => pyFloat ((Record.get data f).getD (.num 0))) numerical_features
  let cats ← exceptMap (fun f =>
    let value := catValue (Record.get data f)
    match label_index (encoders f) value with
    | some i => Except.ok ((i : ℚ))
    | none => Except.error (invalid_value_msg f value (encoders f))) categorical_features
  pure (scale means stds (nums ++ cats))

/-- `ModelManager._get_feature_importances` (model.py lines 78-92),
parameterized by the optional `feature_importances_` and `abs`-able first
row of `coef_` of the loaded model; `raises` models the `except` branch
(any exception during extraction). -/
def get_feature_importances (raises : Bool) (fi coef0 : Option (List ℚ)) : List ℚ :=
  if raises then
    List.replicate REQUIRED_FEATURES.length (1 / (REQUIRED_FEATURES.length : ℚ))
  else
    match fi with
    | some v => v
    | none =>
      match coef0 with
      | some c => c.map (fun x => |x|)
      | none => List.replicate REQUIRED_FEATURES.length (1 / (REQUIRED_FEATURES.length : ℚ))

/-- The ordered feature-name list saved at training time
(train_model.py lines 49 and 58): numerical then categorical columns. -/
def feature_names : List String := numerical_features ++ categorical_features

/-- Weight of one feature in `get_contributing_factors`
(data_preprocessing.py lines 126-143): base contribution (raw importance
for categoricals, `abs(float(value) * importance)` for the rest) passed
through the `if`/`elif` reweighting chain. -/
def factor_weight (data : Record) (feature : String) (importance : ℚ) : Except String ℚ := do
  let value := (Record.get data feature).getD (.num 0)
  let base ←
    if categorical_features.contains feature then pure importance
    else do
      let v ← pyFloat value
      pure |v * importance|
  if feature == "comorbidity_score" then pure (base * (13/10))
  else if feature == "days_in_hospital" then do
    let v ← pyFloat value
    pure (base * (if v > 7 then 12/10 else 1))
  else if feature == "primary_diagnosis" then pure (base * (12/10))
  else pure base

/-- Python's `sorted(pairs, key=value, reverse=True)`: a stable sort,
descending on the second component; both it and insertion sort are stable
for the same total preorder, so they agree pointwise. -/
def sortByImportanceDesc (l : List (String × ℚ)) : List (String × ℚ) :=
  l.insertionSort (fun a b => b.2 ≤ a.2)

/-- `DataPreprocessor.get_contributing_factors` (data_preprocessing.py
lines 117-152): weight each `(feature, importance)` pair of
`zip(feature_names, feature_importances)`, then keep the `top_n` largest
(stable descending sort, then truncate).  The result dict is modelled as
the association list in its insertion order; the trained `feature_names`
are pairwise distinct, so the dict and the list carry the same bindings. -/
def get_contributing_factors (names : List String) (data : Record)
    (feature_importances : List ℚ) (top_n : ℕ) : Except String (List (String × ℚ)) := do
  let pairs ← exceptMap
    (fun fi => do
      let w ← factor_weight data fi.1 fi.2
      pure (fi.1, w))
    (names.zip feature_importances)
  pure ((sortByImportanceDesc pairs).take top_n)

/-- The three priority buckets returned by `generate_recommendations`. -/
structure Recs where
  high_priority : List String
  medium_priority : List String
  low_priority : List String
deriving DecidableEq, Repr

/-- The nested catalog `base_recommendations` of
`DataPreprocessor._get_factor_recommendations` (data_preprocessing.py lines
196-265); `none` models both missing-key defaults (`.get(factor, {})` and
`.get(importance, fallback)` land in the same fallback). -/
def base_recommendations (factor importance : String) : Option (List String) :=
  if factor == "comorbidity_score" then
    if importance == "high" then
      some ["Schedule comprehensive health assessment",
            "Review and adjust all medications",
            "Consider specialist consultations"]
    else if importance == "medium" then
      some ["Schedule follow-up for major conditions",
            "Review medication compliance",
            "Monitor symptoms regularly"]
    else if importance == "low" then
      some ["Maintain current treatment plans",
            "Regular check-ups as scheduled",
            "Report any new symptoms"]
    else none
  else if factor == "days_in_hospital" then
    if importance == "high" then
      some ["Create detailed post-discharge plan",
            "Schedule 48-hour follow-up",
            "Arrange home health services"]
    else if importance == "medium" then
      some ["Schedule follow-up within 7 days",
            "Review discharge instructions",
            "Monitor recovery progress"]
    else if importance == "low" then
      some ["Follow discharge instructions",
            "Schedule routine follow-up",
            "Monitor for complications"]
    else none
  else if factor == "primary_diagnosis" then
    if importance == "high" then
      some ["Urgent specialist consultation",
            "Review treatment effectiveness",
            "Consider additional testing"]
    else if importance == "medium" then
      some ["Schedule specialist follow-up",
            "Monitor specific symptoms",
            "Review treatment plan"]
    else if importance == "low" then
      some ["Continue prescribed treatment",
            "Regular monitoring",
            "Routine check-ups"]
    else none
  else if factor == "num_procedures" then
    if importance == "high" then
      some ["Close monitoring of procedure sites",
            "Schedule post-procedure check-ups",
            "Watch for complications"]
    else if importance == "medium" then
      some ["Follow post-procedure care",
            "Regular wound care if needed",
            "Report unusual symptoms"]
    else if importance == "low" then
      some ["Continue normal recovery",
            "Basic wound care",
            "Regular check-ups"]
    else none
  else none

/-- `DataPreprocessor._get_factor_recommendations` (data_preprocessing.py
lines 194-273): catalog lookup with generic fallback, urgency-prefixed when
the risk level is High. -/
def get_factor_recommendations (factor importance risk_level : String) : List String :=
  let recommendations := (base_recommendations factor importance).getD
    ["Monitor and maintain current health management plan"]
  if risk_level == "High" then recommendations.map (fun r => "URGENT: " ++ r)
  else recommendations

/-- The `general_recs` dict of `_add_general_recommendations`
(data_preprocessing.py lines 277-299); indexing with a key other than the
three tiers raises `KeyError` in Python and is unreachable from the
pipeline (callers pass a tier-mapper output), modelled as `[]`. -/
def general_recs (risk_level : String) : List String :=
  if risk_level == "High" then
    ["Schedule immediate follow-up",
     "Review all medications",
     "Set up daily monitoring",
     "Arrange support at home",
     "Consider home care"]
  else if risk_level == "Medium" then
    ["Follow-up within 2 weeks",
     "Review medications",
     "Keep health diary",
     "Know emergency contacts",
     "Learn warning signs"]
  else if risk_level == "Low" then
    ["Routine follow-up",
     "Continue medications",
     "Maintain healthy habits",
     "Regular exercise",
     "Balanced diet"]
  else []

/-- `DataPreprocessor._add_general_recommendations` (data_preprocessing.py
lines 275-305): extend the single bucket matching the risk level with the
general advice list for that level. -/
def add_general_recommendations (recommendations : Recs) (risk_level : String) : Recs :=
  if risk_level == "High" then
    { recommendations with
      high_priority := recommendations.high_priority ++ general_recs risk_level }
  else if risk_level == "Medium" then
    { recommendations with
      medium_priority := recommendations.medium_priority ++ general_recs risk_level }
  else
    { recommendations with
      low_priority := recommendations.low_priority ++ general_recs risk_level }

/-- One iteration of the bucket-placement loop of `generate_recommendations`
(data_preprocessing.py lines 169-181). -/
def recommend_step (risk_level : String) (r : Recs) (fi : String × ℚ) : Recs :=
  if fi.2 > 3/10 ∨ risk_level = "High" then
    { r with high_priority :=
        r.high_priority ++ get_factor_recommendations fi.1 "high" risk_level }
  else if fi.2 > 1/10 ∨ risk_level = "Medium" then
    { r with medium_priority :=
        r.medium_priority ++ get_factor_recommendations fi.1 "medium" risk_level }
  else
    { r with low_priority :=
        r.low_priority ++ get_factor_recommendations fi.1 "low" risk_level }

/-- `DataPreprocessor.generate_recommendations` (data_preprocessing.py
lines 154-184). -/
def generate_recommendations (contributing_factors : List (String × ℚ)) (p : ℚ) : Recs :=
  let risk_level := get_risk_level RISK_THRESHOLDS_low RISK_THRESHOLDS_medium p
  add_general_recommendations
    (contributing_factors.foldl (recommend_step risk_level) ⟨[], [], []⟩)
    risk_level

/-- The record of the spec's end-to-end scenario (§8): age 65, gender M,
diagnosis D1, 2 procedures, 10 days in hospital, comorbidity 4.0,
discharged home. -/
def scenario_record : Record :=
  [("age", .num 65), ("gender", .str "M"), ("primary_diagnosis", .str "D1"),
   ("num_procedures", .num 2), ("days_in_hospital", .num 10),
   ("comorbidity_score", .num 4), ("discharge_to", .str "home")]

/-- The success path of `ModelManager.predict` (model.py lines 41-70) with
the opaque fitted classifier stubbed by the probability `p` it returns:
contributing factors from the trained feature names and the model's
importance vector, recommendations, risk level, and confidence score. -/
def predict_core (p : ℚ) (feature_importances : List ℚ) (data : Record) :
    Except String (String × ℚ × List (String × ℚ) × Recs) := do
  let contributing ← get_contributing_factors feature_names data feature_importances 5
  let recommendations := generate_recommendations contributing p
  let risk_level := determine_risk_level RISK_THRESHOLDS_low RISK_THRESHOLDS_medium p
  pure (risk_level, calculate_confidence p, contributing, recommendations)

/-- The urgency marker test: does a recommendation string start with
`"URGENT: "`? -/
def hasUrgentMarker (s : String) : Bool := "URGENT: ".data.isPrefixOf s.data

/-- Factors routed to the high-priority bucket by the placement loop. -/
def highPart (risk : String) (factors : List (String × ℚ)) : List String :=
  (factors.filter (fun fi => decide (fi.2 > 3/10 ∨ risk = "High"))).flatMap
    (fun fi => get_factor_recommendations fi.1 "high" risk)

/-- Factors routed to the medium-priority bucket by the placement loop. -/
def mediumPart (risk : String) (factors : List (String × ℚ)) : List String :=
  (factors.filter (fun fi =>
      decide (¬ (fi.2 > 3/10 ∨ risk = "High") ∧ (fi.2 > 1/10 ∨ risk = "Medium")))).flatMap
    (fun fi => get_factor_recommendations fi.1 "medium" risk)

/-- Factors routed to the low-priority bucket by the placement loop. -/
def lowPart (risk : String) (factors : List (String × ℚ)) : List String :=
  (factors.filter (fun fi =>
      decide (¬ (fi.2 > 3/10 ∨ risk = "High") ∧ ¬ (fi.2 > 1/10 ∨ risk = "Medium")))).flatMap
    (fun fi => get_factor_recommendations fi.1 "low" risk)

/-- The spec's closed-form description of one explanation weight (§4.5):
base contribution — raw importance for a categorical feature,
`|raw_value * importance|` for a numerical one — times the single domain
multiplier the feature name matches: ×1.3 for `comorbidity_score`, ×1.2
for `days_in_hospital` when its raw value exceeds 7, ×1.2 for
`primary_diagnosis`, ×1 otherwise. -/
def spec_weight (f : String) (v imp : ℚ) : ℚ :=
  (if f ∈ categorical_features then imp else |v * imp|) *
    (if f = "comorbidity_score" then 13/10
     else if f = "days_in_hospital" ∧ v > 7 then 12/10
     else if f = "primary_diagnosis" then 12/10
     else 1)

/-- A record is numerically well-typed at feature `f` when the value read
for `f` (with Python default `0`) is a number — in particular whenever the
key is absent or bound to a number. -/
def numOk (data : Record) (f : String) : Prop :=
  (Record.get data f).getD (.num 0) = PyVal.num (rawNum data f)

/-- A fully-present record: numbers in the four numeric slots, strings in
the three categorical slots. -/
def mkRecord (a np dih cs : ℚ) (g pd dt : String) : Record :=
  [("age", .num a), ("num_procedures", .num np), ("days_in_hospital", .num dih),
   ("comorbidity_score", .num cs), ("gender", .str g), ("primary_diagnosis", .str pd),
   ("discharge_to", .str dt)]

/-- The validator's per-value violation messages (spec §4.1) in source
order, for a fully-present numerically-typed record. -/
def violation_msgs (encoders : String → List String) (a np dih cs : ℚ)
    (g pd dt : String) : List String :=
  (if ¬ (0 ≤ a ∧ a ≤ 120) then ["Age must be between 0 and 120"] else []) ++
  (if np < 0 then ["Number of procedures cannot be negative"] else []) ++
  (if dih < 0 then ["Days in hospital cannot be negative"] else []) ++
  (if cs < 0 then ["Comorbidity score cannot be negative"] else []) ++
  (if g ∉ encoders "gender" then
    ["Gender must be one of: " ++ joinComma (encoders "gender")] else []) ++
  (if pd ∉ encoders "primary_diagnosis" then ["Invalid primary diagnosis code"] else []) ++
  (if dt ∉ encoders "discharge_to" then
    ["Discharge destination must be one of: " ++ joinComma (encoders "discharge_to")] else [])

/-- Sample fitted vocabularies for concrete evaluations. -/
def sample_encoders : String → List String := fun f =>
  if f = "gender" then ["F", "M"]
  else if f = "primary_diagnosis" then ["D1", "D2"]
  else if f = "discharge_to" then ["home", "rehab"]
  else []

/-- The per-categorical-feature encoding step of `preprocess_features`. -/
def catStep (encoders : String → List String) (data : Record) (f : String) :
    Except String ℚ :=
  match label_index (encoders f) (catValue (Record.get data f)) with
  | some i => Except.ok ((i : ℚ))
  | none => Except.error (invalid_value_msg f (catValue (Record.get data f)) (encoders f))

/-- The contributing factors computed for the scenario record under the
uniform importance vector. -/
def c4_factors : List (String × ℚ) :=
  [("age", 65/7), ("days_in_hospital", 12/7), ("comorbidity_score", 26/35),
   ("num_procedures", 2/7), ("primary_diagnosis", 6/35)]

/-- The urgency-prefixed per-factor recommendations produced for the
scenario record (risk High puts every factor in the high bucket). -/
def c4_urgent : List String :=
  ["URGENT: Monitor and maintain current health management plan",
   "URGENT: Create detailed post-discharge plan",
   "URGENT: Schedule 48-hour follow-up",
   "URGENT: Arrange home health services",
   "URGENT: Schedule comprehensive health assessment",
   "URGENT: Review and adjust all medications",
   "URGENT: Consider specialist consultations",
   "URGENT: Close monitoring of procedure sites",
   "URGENT: Schedule post-procedure check-ups",
   "URGENT: Watch for complications",
   "URGENT: Urgent specialist consultation",
   "URGENT: Review treatment effectiveness",
   "URGENT: Consider additional testing"]


/-! ## Basic lemmas -/

theorem exceptMap_ok {g : α → Except String β} {h : α → β} :
    ∀ {l : List α}, (∀ x ∈ l, g x = .ok (h x)) → exceptMap g l = .ok (l.map h)
  | [], _ => rfl
  | x :: xs, H => by
    have hx := H x (List.mem_cons_self x xs)
    have hxs := exceptMap_ok (g := g) (h := h) (l := xs)
      (fun y hy => H y (List.mem_cons_of_mem x hy))
    show (do
      let y ← g x
      let ys ← exceptMap g xs
      pure (y :: ys) : Except String (List β)) = _
    rw [hx, hxs]
    rfl

theorem label_index_eq_none {v : String} :
    ∀ {classes : List String}, label_index classes v = none ↔ v ∉ classes
  | [] => by simp [label_index]
  | c :: cs => by
    have ih : label_index cs v = none ↔ v ∉ cs := label_index_eq_none
    by_cases hc : c = v
    · simp [label_index, hc]
    · simp only [label_index, if_neg hc, List.mem_cons]
      cases hl : label_index cs v with
      | none =>
        have hv : v ∉ cs := ih.mp hl
        simp only [Option.map_none']
        constructor
        · rintro - (h' | h')
          · exact hc h'.symm
          · exact hv h'
        · intro _
          exact trivial
      | some i =>
        have hv : v ∈ cs := by
          by_contra hnv
          rw [ih.mpr hnv] at hl
          exact Option.noConfusion hl
        simp only [Option.map_some']
        constructor
        · intro h
          exact Option.noConfusion h
        · intro h
          exact absurd (Or.inr hv) h

theorem label_index_isSome_of_mem {classes : List String} {v : String}
    (h : v ∈ classes) : ∃ i, label_index classes v = some i := by
  rcases hl : label_index classes v with _ | i
  · exact absurd h (label_index_eq_none.mp hl)
  · exact ⟨i, rfl⟩

/-! ## Claim theorems -/

/-- C1: the risk tier mapper sends `p < 0.3` to Low, `0.3 ≤ p < 0.6` to
Medium and `p ≥ 0.6` to High; in particular the boundary probabilities 0.3
and 0.6 map to Medium and High respectively (half-open intervals). -/
theorem c1_tier_halfopen :
    (∀ p : ℚ,
      (tier p = "Low" ↔ p < 3/10) ∧
      (tier p = "Medium" ↔ 3/10 ≤ p ∧ p < 6/10) ∧
      (tier p = "High" ↔ 6/10 ≤ p)) ∧
    tier (3/10) = "Medium" ∧ tier (6/10) = "High" := by
  have key : ∀ p : ℚ,
      (tier p = "Low" ↔ p < 3/10) ∧
      (tier p = "Medium" ↔ 3/10 ≤ p ∧ p < 6/10) ∧
      (tier p = "High" ↔ 6/10 ≤ p) := by
    intro p
    unfold tier determine_risk_level RISK_THRESHOLDS_low RISK_THRESHOLDS_medium
    split_ifs with h1 h2
    · exact ⟨⟨fun _ => h1, fun _ => rfl⟩,
        ⟨fun h => absurd h (by simp), fun h => absurd h1 (not_lt.mpr h.1)⟩,
        ⟨fun h => absurd h (by simp), fun h => absurd h1 (by linarith)⟩⟩
    · exact ⟨⟨fun h => absurd h (by simp), fun h => absurd h h1⟩,
        ⟨fun _ => ⟨le_of_not_lt h1, h2⟩, fun _ => rfl⟩,
        ⟨fun h => absurd h (by simp), fun h => absurd h2 (not_lt.mpr h)⟩⟩
    · exact ⟨⟨fun h => absurd h (by simp), fun h => absurd h h1⟩,
        ⟨fun h => absurd h (by simp), fun h => absurd h.2 h2⟩,
        ⟨fun _ => le_of_not_lt h2, fun _ => rfl⟩⟩
  refine ⟨key, ?_, ?_⟩
  · rw [((key (3/10)).2.1)]
    norm_num
  · rw [((key (6/10)).2.2)]

/-- Counterexample for C6: the code's formula gives `confidence(0) = 0`,
not `1.0` as the claim's "consequently" part states. -/
theorem c6_counterexample :
    calculate_confidence 0 = 0 ∧ (0 : ℚ) ≠ 1 := by
  constructor
  · norm_num [calculate_confidence, abs_of_nonneg]
  · norm_num

/-- C6 (amended): `confidence(p) = 1 - 2|0.5 - p|`, hence
`confidence(0) = confidence(1) = 0`, `confidence(0.5) = 1` (the formula is
minimal at the extremes and maximal at 0.5, the reverse of the claimed
boundary values), and confidence is symmetric about `p = 0.5`. -/
theorem c6_confidence_properties :
    (∀ p : ℚ, calculate_confidence p = 1 - 2 * |1/2 - p|) ∧
    calculate_confidence 0 = 0 ∧ calculate_confidence 1 = 0 ∧
    calculate_confidence (1/2) = 1 ∧
    (∀ p : ℚ, calculate_confidence p = calculate_confidence (1 - p)) := by
  refine ⟨fun p => rfl, ?_, ?_, ?_, fun p => ?_⟩
  · norm_num [calculate_confidence, abs_of_nonneg]
  · rw [calculate_confidence, show (1:ℚ)/2 - 1 = -(1/2) by norm_num, abs_neg]
    norm_num [abs_of_nonneg]
  · norm_num [calculate_confidence]
  · unfold calculate_confidence
    rw [show (1:ℚ)/2 - (1 - p) = -(1/2 - p) by ring, abs_neg]

/-- C7: the risk level recomputed in the Recommendation Synthesizer
(`DataPreprocessor._get_risk_level`) agrees with the Tier Mapper
(`ModelManager._determine_risk_level`) for every probability and every
threshold configuration. -/
theorem c7_risk_level_consistency :
    ∀ low medium p : ℚ,
      get_risk_level low medium p = determine_risk_level low medium p :=
  fun _ _ _ => rfl

/-- C8: when the model exposes neither tree importances nor linear
coefficients, or importance extraction raises, the importance vector is
uniform: seven entries, each `1/7`. -/
theorem c8_uniform_fallback :
    ∀ (raises : Bool) (fi coef0 : Option (List ℚ)),
      (fi = none ∧ coef0 = none) ∨ raises = true →
      get_feature_importances raises fi coef0 = List.replicate 7 (1/7) ∧
      (get_feature_importances raises fi coef0).length = 7 ∧
      ∀ x ∈ get_feature_importances raises fi coef0, x = 1/7 := by
  intro raises fi coef0 h
  have huni : get_feature_importances raises fi coef0 = List.replicate 7 (1/7) := by
    rcases h with ⟨hfi, hc⟩ | hr
    · subst hfi; subst hc
      cases raises <;> simp [get_feature_importances, REQUIRED_FEATURES]
    · subst hr
      simp [get_feature_importances, REQUIRED_FEATURES]
  refine ⟨huni, by rw [huni]; rfl, fun x hx => ?_⟩
  rw [huni] at hx
  exact List.eq_of_mem_replicate hx

/-- Witness for C8: a model object with no importances and no coefficients
yields the uniform vector. -/
theorem c8_uniform_fallback_witness :
    get_feature_importances false none none = List.replicate 7 (1/7) :=
  (c8_uniform_fallback false none none (Or.inl ⟨rfl, rfl⟩)).1

theorem highPart_cons_pos {risk : String} {fi : String × ℚ} {fs : List (String × ℚ)}
    (h : fi.2 > 3/10 ∨ risk = "High") :
    highPart risk (fi :: fs) =
      get_factor_recommendations fi.1 "high" risk ++ highPart risk fs := by
  unfold highPart
  rw [List.filter_cons, if_pos (decide_eq_true h), List.flatMap_cons]

theorem highPart_cons_neg {risk : String} {fi : String × ℚ} {fs : List (String × ℚ)}
    (h : ¬ (fi.2 > 3/10 ∨ risk = "High")) :
    highPart risk (fi :: fs) = highPart risk fs := by
  unfold highPart
  rw [List.filter_cons, if_neg (by simpa using h)]

theorem mediumPart_cons_pos {risk : String} {fi : String × ℚ} {fs : List (String × ℚ)}
    (h1 : ¬ (fi.2 > 3/10 ∨ risk = "High")) (h2 : fi.2 > 1/10 ∨ risk = "Medium") :
    mediumPart risk (fi :: fs) =
      get_factor_recommendations fi.1 "medium" risk ++ mediumPart risk fs := by
  unfold mediumPart
  rw [List.filter_cons, if_pos (decide_eq_true ⟨h1, h2⟩), List.flatMap_cons]

theorem mediumPart_cons_neg {risk : String} {fi : String × ℚ} {fs : List (String × ℚ)}
    (h : (fi.2 > 3/10 ∨ risk = "High") ∨ ¬ (fi.2 > 1/10 ∨ risk = "Medium")) :
    mediumPart risk (fi :: fs) = mediumPart risk fs := by
  unfold mediumPart
  rw [List.filter_cons, if_neg (by simp only [decide_eq_true_eq]; tauto)]

theorem lowPart_cons_pos {risk : String} {fi : String × ℚ} {fs : List (String × ℚ)}
    (h1 : ¬ (fi.2 > 3/10 ∨ risk = "High")) (h2 : ¬ (fi.2 > 1/10 ∨ risk = "Medium")) :
    lowPart risk (fi :: fs) =
      get_factor_recommendations fi.1 "low" risk ++ lowPart risk fs := by
  unfold lowPart
  rw [List.filter_cons, if_pos (decide_eq_true ⟨h1, h2⟩), List.flatMap_cons]

theorem lowPart_cons_neg {risk : String} {fi : String × ℚ} {fs : List (String × ℚ)}
    (h : (fi.2 > 3/10 ∨ risk = "High") ∨ (fi.2 > 1/10 ∨ risk = "Medium")) :
    lowPart risk (fi :: fs) = lowPart risk fs := by
  unfold lowPart
  rw [List.filter_cons, if_neg (by simp only [decide_eq_true_eq]; tauto)]

theorem foldl_recommend_step (risk : String) :
    ∀ (factors : List (String × ℚ)) (acc : Recs),
      factors.foldl (recommend_step risk) acc =
        { high_priority := acc.high_priority ++ highPart risk factors,
          medium_priority := acc.medium_priority ++ mediumPart risk factors,
          low_priority := acc.low_priority ++ lowPart risk factors }
  | [], acc => by simp [highPart, mediumPart, lowPart]
  | fi :: fs, acc => by
    have ih := foldl_recommend_step risk fs (recommend_step risk acc fi)
    rw [List.foldl_cons, ih]
    by_cases h1 : fi.2 > 3/10 ∨ risk = "High"
    · rw [highPart_cons_pos h1, mediumPart_cons_neg (Or.inl h1), lowPart_cons_neg (Or.inl h1)]
      rw [show recommend_step risk acc fi =
        { acc with high_priority :=
            acc.high_priority ++ get_factor_recommendations fi.1 "high" risk } from
        if_pos h1]
      simp [List.append_assoc]
    · by_cases h2 : fi.2 > 1/10 ∨ risk = "Medium"
      · rw [highPart_cons_neg h1, mediumPart_cons_pos h1 h2, lowPart_cons_neg (Or.inr h2)]
        rw [show recommend_step risk acc fi =
          { acc with medium_priority :=
              acc.medium_priority ++ get_factor_recommendations fi.1 "medium" risk } from
          by unfold recommend_step; rw [if_neg h1, if_pos h2]]
        simp [List.append_assoc]
      · rw [highPart_cons_neg h1, mediumPart_cons_neg (Or.inr h2), lowPart_cons_pos h1 h2]
        rw [show recommend_step risk acc fi =
          { acc with low_priority :=
              acc.low_priority ++ get_factor_recommendations fi.1 "low" risk } from
          by unfold recommend_step; rw [if_neg h1, if_neg h2]]
        simp [List.append_assoc]

/-- C3: each `(factor, importance)` pair lands in high_priority when
`importance > 0.3` or the tier is High, otherwise in medium_priority when
`importance > 0.1` or the tier is Medium, otherwise in low_priority; the
general-advice list of the tier is then appended, unconditionally and
without urgency prefix, only to the bucket matching the tier. -/
theorem c3_bucket_placement :
    ∀ (factors : List (String × ℚ)) (p : ℚ),
      (generate_recommendations factors p).high_priority =
        highPart (get_risk_level RISK_THRESHOLDS_low RISK_THRESHOLDS_medium p) factors ++
          (if get_risk_level RISK_THRESHOLDS_low RISK_THRESHOLDS_medium p = "High" then
            general_recs (get_risk_level RISK_THRESHOLDS_low RISK_THRESHOLDS_medium p)
           else []) ∧
      (generate_recommendations factors p).medium_priority =
        mediumPart (get_risk_level RISK_THRESHOLDS_low RISK_THRESHOLDS_medium p) factors ++
          (if get_risk_level RISK_THRESHOLDS_low RISK_THRESHOLDS_medium p = "Medium" then
            general_recs (get_risk_level RISK_THRESHOLDS_low RISK_THRESHOLDS_medium p)
           else []) ∧
      (generate_recommendations factors p).low_priority =
        lowPart (get_risk_level RISK_THRESHOLDS_low RISK_THRESHOLDS_medium p) factors ++
          (if get_risk_level RISK_THRESHOLDS_low RISK_THRESHOLDS_medium p = "High" ∨
              get_risk_level RISK_THRESHOLDS_low RISK_THRESHOLDS_medium p = "Medium" then []
           else general_recs (get_risk_level RISK_THRESHOLDS_low RISK_THRESHOLDS_medium p)) ∧
      ((general_recs (get_risk_level RISK_THRESHOLDS_low RISK_THRESHOLDS_medium p)).all
        (fun s => !(hasUrgentMarker s))) = true := by
  intro factors p
  have hrisk : get_risk_level RISK_THRESHOLDS_low RISK_THRESHOLDS_medium p = "Low" ∨
      get_risk_level RISK_THRESHOLDS_low RISK_THRESHOLDS_medium p = "Medium" ∨
      get_risk_level RISK_THRESHOLDS_low RISK_THRESHOLDS_medium p = "High" := by
    unfold get_risk_level
    split_ifs <;> simp
  rcases hrisk with h | h | h <;>
    simp only [generate_recommendations, h, foldl_recommend_step,
      add_general_recommendations] <;>
    refine ⟨?_, ?_, ?_, by decide⟩ <;>
    simp +decide

theorem factor_weight_eq_spec {data : Record} {f : String} (imp : ℚ)
    (hmem : f ∈ feature_names) (hnum : f ∈ numerical_features → numOk data f) :
    factor_weight data f imp = .ok (spec_weight f (rawNum data f) imp) := by
  have hcases : f = "age" ∨ f = "num_procedures" ∨ f = "days_in_hospital" ∨
      f = "comorbidity_score" ∨ f = "gender" ∨ f = "primary_diagnosis" ∨
      f = "discharge_to" := by
    simpa [feature_names, numerical_features, categorical_features] using hmem
  rcases hcases with h | h | h | h | h | h | h <;> subst h
  · have hv := hnum (by decide)
    rw [numOk] at hv
    simp +decide [factor_weight, spec_weight, hv, pyFloat, categorical_features]
  · have hv := hnum (by decide)
    rw [numOk] at hv
    simp +decide [factor_weight, spec_weight, hv, pyFloat, categorical_features]
  · have hv := hnum (by decide)
    rw [numOk] at hv
    by_cases h7 : rawNum data "days_in_hospital" > 7 <;>
      simp +decide [factor_weight, spec_weight, hv, pyFloat, categorical_features, h7] <;>
      rfl
  · have hv := hnum (by decide)
    rw [numOk] at hv
    simp +decide [factor_weight, spec_weight, hv, pyFloat, categorical_features]
  · simp +decide [factor_weight, spec_weight, categorical_features]; rfl
  · simp +decide [factor_weight, spec_weight, categorical_features]; rfl
  · simp +decide [factor_weight, spec_weight, categorical_features]; rfl

/-- C2: on a numerically well-typed record, the explanation engine weights
every `(feature, importance)` pair of `zip(feature_names, importances)`
exactly as the spec's closed form describes (base contribution, then the
single matching ×1.3 / ×1.2 / ×1.2 multiplier), sorts descending by
weighted contribution (stable) and returns the first `top_n` entries; the
output length is `min top_n (min 7 |importances|)` and the output is
sorted descending. -/
theorem c2_explain (data : Record) (importances : List ℚ) (top_n : ℕ)
    (hnum : ∀ f ∈ numerical_features, numOk data f) :
    get_contributing_factors feature_names data importances top_n =
      Except.ok ((sortByImportanceDesc ((feature_names.zip importances).map
        (fun q => (q.1, spec_weight q.1 (rawNum data q.1) q.2)))).take top_n) ∧
    ((sortByImportanceDesc ((feature_names.zip importances).map
        (fun q => (q.1, spec_weight q.1 (rawNum data q.1) q.2)))).take top_n).length =
      min top_n (min 7 importances.length) ∧
    ((sortByImportanceDesc ((feature_names.zip importances).map
        (fun q => (q.1, spec_weight q.1 (rawNum data q.1) q.2)))).take top_n).Pairwise
      (fun a b => b.2 ≤ a.2) := by
  have hmap : exceptMap
      (fun fi => do
        let w ← factor_weight data fi.1 fi.2
        pure (fi.1, w))
      (feature_names.zip importances) =
      .ok ((feature_names.zip importances).map
        (fun q => (q.1, spec_weight q.1 (rawNum data q.1) q.2))) := by
    apply exceptMap_ok
    intro x hx
    have hx1 : x.1 ∈ feature_names := (List.of_mem_zip (a := x.1) (b := x.2) (by simpa using hx)).1
    rw [factor_weight_eq_spec x.2 hx1 (fun hf => hnum x.1 hf)]
    rfl
  refine ⟨?_, ?_, ?_⟩
  · unfold get_contributing_factors
    rw [hmap]
    rfl
  · rw [List.length_take, sortByImportanceDesc, List.length_insertionSort,
      List.length_map, List.length_zip]
    simp [feature_names, numerical_features, categorical_features, Nat.min_assoc]
  · haveI : IsTotal (String × ℚ) (fun a b => b.2 ≤ a.2) := ⟨fun a b => le_total b.2 a.2⟩
    haveI : IsTrans (String × ℚ) (fun a b => b.2 ≤ a.2) :=
      ⟨fun _ _ _ hab hbc => le_trans hbc hab⟩
    have hs : List.Sorted (fun a b : String × ℚ => b.2 ≤ a.2)
        (sortByImportanceDesc ((feature_names.zip importances).map
          (fun q => (q.1, spec_weight q.1 (rawNum data q.1) q.2)))) :=
      List.sorted_insertionSort (fun a b : String × ℚ => b.2 ≤ a.2) _
    exact List.Pairwise.sublist (List.take_sublist _ _) hs

/-- Witness for C2: the scenario record with the uniform importance vector
and `top_n = 5`. -/
theorem c2_explain_witness :
    get_contributing_factors feature_names scenario_record (List.replicate 7 (1/7)) 5 =
      Except.ok ((sortByImportanceDesc ((feature_names.zip (List.replicate 7 (1/7))).map
        (fun q => (q.1, spec_weight q.1 (rawNum scenario_record q.1) q.2)))).take 5) :=
  (c2_explain scenario_record (List.replicate 7 (1/7)) 5
    (by intro f hf; fin_cases hf <;> rfl)).1

/-- Counterexample for C5: a record missing `discharge_to` and with the
out-of-range `age = 150` reports only the missing feature — the validator
returns before any value check, so the two violations are not reported
jointly. -/
theorem c5_counterexample :
    validate_features sample_encoders
      [("age", .num 150), ("num_procedures", .num 2), ("days_in_hospital", .num 3),
       ("comorbidity_score", .num 1), ("gender", .str "M"), ("primary_diagnosis", .str "D1")] =
      Except.ok (false, "Missing required features: discharge_to") ∧
    ¬ ("Age".data <:+: "Missing required features: discharge_to".data) := by
  constructor
  · simp +decide [validate_features, required_features, numerical_features,
      categorical_features, Record.get, joinComma]
  · decide

/-- C5 (amended): if any required feature is missing, the validator
short-circuits and reports only the missing features; otherwise all value
violations (out-of-range and unknown-category) are collected jointly into
one `"; "`-joined message. -/
theorem c5_validator_joint_collection :
    (∀ (encoders : String → List String) (data : Record),
      required_features.filter (fun f => (Record.get data f).isNone) ≠ [] →
      validate_features encoders data =
        Except.ok (false, "Missing required features: " ++
          joinComma (required_features.filter (fun f => (Record.get data f).isNone)))) ∧
    (∀ (encoders : String → List String) (a np dih cs : ℚ) (g pd dt : String),
      validate_features encoders (mkRecord a np dih cs g pd dt) =
        Except.ok ((violation_msgs encoders a np dih cs g pd dt).isEmpty,
          String.intercalate "; " (violation_msgs encoders a np dih cs g pd dt))) := by
  constructor
  · intro encoders data h
    cases hl : required_features.filter (fun f => (Record.get data f).isNone) with
    | nil => exact absurd hl h
    | cons x xs =>
      unfold validate_features
      rw [hl]
      rfl
  · intro encoders a np dih cs g pd dt
    have hmiss : required_features.filter
        (fun f => (Record.get (mkRecord a np dih cs g pd dt) f).isNone) = [] := by
      simp +decide [required_features, numerical_features, categorical_features,
        mkRecord, Record.get]
    have herrs : validate_features encoders (mkRecord a np dih cs g pd dt) =
        (if (violation_msgs encoders a np dih cs g pd dt).isEmpty = false then
          Except.ok (false,
            String.intercalate "; " (violation_msgs encoders a np dih cs g pd dt))
        else Except.ok (true, "")) := by
      unfold validate_features
      rw [hmiss]
      simp +decide [mkRecord, Record.get, numValue, catValue, violation_msgs]
      rfl
    rw [herrs]
    cases he : (violation_msgs encoders a np dih cs g pd dt).isEmpty with
    | false => rw [if_pos rfl]
    | true =>
      rw [if_neg (by simp)]
      rw [List.isEmpty_iff.mp he]
      rfl

/-- Witness for C5: a record missing only `discharge_to` reports just the
missing feature, and a fully-present record violating both the age range
and the comorbidity range reports both messages jointly. -/
theorem c5_validator_joint_collection_witness :
    validate_features sample_encoders
      [("age", .num 50), ("num_procedures", .num 2), ("days_in_hospital", .num 3),
       ("comorbidity_score", .num 1), ("gender", .str "M"), ("primary_diagnosis", .str "D1")] =
      Except.ok (false, "Missing required features: discharge_to") ∧
    validate_features sample_encoders (mkRecord 150 2 3 (-1) "M" "D1" "home") =
      Except.ok (false,
        "Age must be between 0 and 120; Comorbidity score cannot be negative") := by
  constructor
  · have h1 := c5_validator_joint_collection.1 sample_encoders
      [("age", .num 50), ("num_procedures", .num 2), ("days_in_hospital", .num 3),
       ("comorbidity_score", .num 1), ("gender", .str "M"), ("primary_diagnosis", .str "D1")]
      (by decide)
    rw [h1]
    rfl
  · have h := c5_validator_joint_collection.2 sample_encoders 150 2 3 (-1) "M" "D1" "home"
    rw [h]
    norm_num [violation_msgs]
    simp +decide [sample_encoders, joinComma]

theorem preprocess_features_eq (encoders : String → List String) (means stds : List ℚ)
    (data : Record) :
    preprocess_features encoders means stds data = (do
      let nums ← exceptMap (fun f => pyFloat ((Record.get data f).getD (.num 0)))
        numerical_features
      let cats ← exceptMap (catStep encoders data) categorical_features
      pure (scale means stds (nums ++ cats))) := rfl

theorem nums_ok {data : Record} (hnum : ∀ f ∈ numerical_features, numOk data f) :
    exceptMap (fun f => pyFloat ((Record.get data f).getD (.num 0))) numerical_features =
      .ok (numerical_features.map (rawNum data)) := by
  apply exceptMap_ok
  intro f hf
  rw [hnum f hf]
  rfl

theorem catStep_ok {encoders : String → List String} {data : Record} {f : String}
    (h : catValue (Record.get data f) ∈ encoders f) :
    ∃ i : ℕ, catStep encoders data f = .ok ((i : ℚ)) := by
  obtain ⟨i, hi⟩ := label_index_isSome_of_mem h
  exact ⟨i, by rw [catStep, hi]⟩

theorem catStep_err {encoders : String → List String} {data : Record} {f : String}
    (h : catValue (Record.get data f) ∉ encoders f) :
    catStep encoders data f =
      .error (invalid_value_msg f (catValue (Record.get data f)) (encoders f)) := by
  rw [catStep, label_index_eq_none.mpr h]

/-- C9: whenever some categorical value lies outside its fitted vocabulary
(and the numeric slots are well-typed, so no float conversion fails first),
`preprocess_features` raises a `ValueError` naming an offending feature and
its value, and never produces a feature vector; this gate is independent of
the validator (which is not invoked here). -/
theorem c9_unknown_category (encoders : String → List String) (means stds : List ℚ)
    (data : Record)
    (hnum : ∀ f ∈ numerical_features, numOk data f)
    (hbad : ∃ f ∈ categorical_features, catValue (Record.get data f) ∉ encoders f) :
    (∃ f, f ∈ categorical_features ∧ catValue (Record.get data f) ∉ encoders f ∧
      preprocess_features encoders means stds data =
        Except.error (invalid_value_msg f (catValue (Record.get data f)) (encoders f))) ∧
    ∀ xs, preprocess_features encoders means stds data ≠ Except.ok xs := by
  have key : ∃ f, f ∈ categorical_features ∧ catValue (Record.get data f) ∉ encoders f ∧
      preprocess_features encoders means stds data =
        Except.error (invalid_value_msg f (catValue (Record.get data f)) (encoders f)) := by
    rw [preprocess_features_eq, nums_ok hnum]
    by_cases hg : catValue (Record.get data "gender") ∈ encoders "gender"
    · obtain ⟨i, hi⟩ := catStep_ok hg
      by_cases hp : catValue (Record.get data "primary_diagnosis") ∈
          encoders "primary_diagnosis"
      · obtain ⟨j, hj⟩ := catStep_ok hp
        have hd : catValue (Record.get data "discharge_to") ∉ encoders "discharge_to" := by
          obtain ⟨f, hf, hfe⟩ := hbad
          have : f = "gender" ∨ f = "primary_diagnosis" ∨ f = "discharge_to" := by
            simpa [categorical_features] using hf
          rcases this with h | h | h <;> subst h
          · exact absurd hg hfe
          · exact absurd hp hfe
          · exact hfe
        refine ⟨"discharge_to", by decide, hd, ?_⟩
        simp only [exceptMap, categorical_features, hi, hj, catStep_err hd]
        rfl
      · refine ⟨"primary_diagnosis", by decide, hp, ?_⟩
        simp only [exceptMap, categorical_features, hi, catStep_err hp]
        rfl
    · refine ⟨"gender", by decide, hg, ?_⟩
      simp only [exceptMap, categorical_features, catStep_err hg]
      rfl
  refine ⟨key, fun xs hxs => ?_⟩
  obtain ⟨f, -, -, herr⟩ := key
  rw [herr] at hxs
  exact Except.noConfusion hxs

/-- Witness for C9: the scenario record with a vocabulary that does not
contain diagnosis code D1 is rejected with the message naming
`primary_diagnosis` and `D1`. -/
theorem c9_unknown_category_witness :
    ∃ f, f ∈ categorical_features ∧
      preprocess_features (fun g => if g = "gender" then ["F", "M"] else ["home"])
        [0, 0, 0, 0, 0, 0, 0] [1, 1, 1, 1, 1, 1, 1] scenario_record =
        Except.error (invalid_value_msg f (catValue (Record.get scenario_record f))
          ((fun g => if g = "gender" then ["F", "M"] else ["home"]) f)) := by
  obtain ⟨f, hf, -, herr⟩ :=
    (c9_unknown_category (fun g => if g = "gender" then ["F", "M"] else ["home"])
      [0, 0, 0, 0, 0, 0, 0] [1, 1, 1, 1, 1, 1, 1] scenario_record
      (by intro f hf; fin_cases hf <;> rfl)
      ⟨"primary_diagnosis", by decide, by decide⟩).1
  exact ⟨f, hf, herr⟩

/-- C10: on a record whose numeric slots are numbers or absent,
`preprocess_features` does not fail on a missing numerical key: it
substitutes the Python default `0` for that column and still produces a
7-column vector (the column holding the scaled `0`); a missing categorical
key is substituted with the empty string, and encoding fails only when the
empty string is outside the fitted vocabulary. -/
theorem c10_missing_keys (encoders : String → List String) (means stds : List ℚ)
    (data : Record)
    (hm : means.length = 7) (hs : stds.length = 7)
    (hnum : ∀ f ∈ numerical_features, numOk data f) :
    ((∀ f ∈ categorical_features, catValue (Record.get data f) ∈ encoders f) →
      ∃ xs, preprocess_features encoders means stds data = Except.ok xs ∧
        xs.length = 7 ∧
        (Record.get data "age" = none →
          ∃ m s, means.head? = some m ∧ stds.head? = some s ∧
            xs.head? = some ((0 - m) / s))) ∧
    (Record.get data "gender" = none →
      catValue (Record.get data "gender") = "" ∧
      ("" ∉ encoders "gender" →
        preprocess_features encoders means stds data =
          Except.error (invalid_value_msg "gender" "" (encoders "gender")))) := by
  constructor
  · intro hcat
    obtain ⟨i, hi⟩ := catStep_ok (hcat "gender" (by decide))
    obtain ⟨j, hj⟩ := catStep_ok (hcat "primary_diagnosis" (by decide))
    obtain ⟨k, hk⟩ := catStep_ok (hcat "discharge_to" (by decide))
    obtain ⟨m, ms, hms⟩ : ∃ m ms, means = m :: ms := by
      cases means with
      | nil => exact absurd hm (by decide)
      | cons m ms => exact ⟨m, ms, rfl⟩
    obtain ⟨s, ss, hss⟩ : ∃ s ss, stds = s :: ss := by
      cases stds with
      | nil => exact absurd hs (by decide)
      | cons s ss => exact ⟨s, ss, rfl⟩
    refine ⟨scale means stds ((numerical_features.map (rawNum data)) ++ [(i : ℚ), j, k]), ?_, ?_, ?_⟩
    · rw [preprocess_features_eq, nums_ok hnum]
      simp only [exceptMap, categorical_features, hi, hj, hk]
      rfl
    · subst hms
      subst hss
      have hms7 : ms.length = 6 := by simpa using hm
      have hss7 : ss.length = 6 := by simpa using hs
      simp [scale, numerical_features, List.length_zipWith, hms7, hss7]
    · intro hage
      have h0 : rawNum data "age" = 0 := by rw [rawNum, hage]
      subst hms
      subst hss
      refine ⟨m, s, rfl, rfl, ?_⟩
      simp [scale, numerical_features, h0]
  · intro hg
    have hc : catValue (Record.get data "gender") = "" := by rw [hg]; rfl
    refine ⟨hc, fun hnot => ?_⟩
    have herr : catStep encoders data "gender" =
        .error (invalid_value_msg "gender" "" (encoders "gender")) := by
      have : catStep encoders data "gender" = .error (invalid_value_msg "gender"
          (catValue (Record.get data "gender")) (encoders "gender")) :=
        catStep_err (by rw [hc]; exact hnot)
      rwa [hc] at this
    rw [preprocess_features_eq, nums_ok hnum]
    simp only [exceptMap, categorical_features, herr]
    rfl

/-- Witness for C10: with a 7-column scaler, a record missing `age` yields
a 7-entry vector whose first column is the scaled default `0`, and a record
missing `gender` (vocabulary without the empty string) is rejected naming
`gender` and the empty string. -/
theorem c10_missing_keys_witness :
    (∃ xs, preprocess_features sample_encoders [1, 1, 1, 1, 1, 1, 1]
        [2, 2, 2, 2, 2, 2, 2]
        [("num_procedures", .num 2), ("days_in_hospital", .num 3),
         ("comorbidity_score", .num 1), ("gender", .str "M"),
         ("primary_diagnosis", .str "D1"), ("discharge_to", .str "home")] =
        Except.ok xs ∧ xs.length = 7 ∧
        (∃ m s, ([1, 1, 1, 1, 1, 1, 1] : List ℚ).head? = some m ∧
          ([2, 2, 2, 2, 2, 2, 2] : List ℚ).head? = some s ∧
          xs.head? = some ((0 - m) / s))) ∧
    preprocess_features sample_encoders [1, 1, 1, 1, 1, 1, 1] [2, 2, 2, 2, 2, 2, 2]
      [("age", .num 50), ("num_procedures", .num 2), ("days_in_hospital", .num 3),
       ("comorbidity_score", .num 1), ("primary_diagnosis", .str "D1"),
       ("discharge_to", .str "home")] =
      Except.error (invalid_value_msg "gender" "" (sample_encoders "gender")) := by
  constructor
  · obtain ⟨xs, hxs, hlen, hhead⟩ :=
      (c10_missing_keys sample_encoders [1, 1, 1, 1, 1, 1, 1] [2, 2, 2, 2, 2, 2, 2]
        [("num_procedures", .num 2), ("days_in_hospital", .num 3),
         ("comorbidity_score", .num 1), ("gender", .str "M"),
         ("primary_diagnosis", .str "D1"), ("discharge_to", .str "home")]
        (by decide) (by decide)
        (by intro f hf; fin_cases hf <;> rfl)).1
      (by intro f hf; fin_cases hf <;> decide)
    exact ⟨xs, hxs, hlen, hhead rfl⟩
  · exact ((c10_missing_keys sample_encoders [1, 1, 1, 1, 1, 1, 1] [2, 2, 2, 2, 2, 2, 2]
      [("age", .num 50), ("num_procedures", .num 2), ("days_in_hospital", .num 3),
       ("comorbidity_score", .num 1), ("primary_diagnosis", .str "D1"),
       ("discharge_to", .str "home")]
      (by decide) (by decide)
      (by intro f hf; fin_cases hf <;> rfl)).2 rfl).2 (by decide)

theorem c4_factors_eval :
    get_contributing_factors feature_names scenario_record
      (get_feature_importances false none none) 5 = Except.ok c4_factors := by
  simp +decide only [get_contributing_factors, feature_names, numerical_features,
    categorical_features, get_feature_importances, REQUIRED_FEATURES, exceptMap,
    factor_weight, Record.get, scenario_record, pyFloat, sortByImportanceDesc,
    List.insertionSort, List.orderedInsert, Except.instMonad, Except.bind, Except.map,
    Except.pure, bind, pure, Bind.bind, Pure.pure, Functor.map, List.zip, List.zipWith]
  norm_num [abs_of_nonneg, List.orderedInsert, c4_factors]

theorem c4_recs_eval :
    generate_recommendations c4_factors (72/100) =
      ⟨c4_urgent ++ general_recs "High", [], []⟩ := by
  have hrisk : get_risk_level RISK_THRESHOLDS_low RISK_THRESHOLDS_medium (72/100) =
      "High" := by
    norm_num [get_risk_level, RISK_THRESHOLDS_low, RISK_THRESHOLDS_medium]
  rw [generate_recommendations, hrisk, foldl_recommend_step]
  norm_num [highPart, mediumPart, lowPart, c4_factors, List.filter,
    get_factor_recommendations, base_recommendations, add_general_recommendations,
    c4_urgent]
  decide

theorem c4_pipeline_eval :
    predict_core (72/100) (get_feature_importances false none none) scenario_record =
      Except.ok ("High", 56/100, c4_factors,
        (⟨c4_urgent ++ general_recs "High", [], []⟩ : Recs)) := by
  have hrisk : determine_risk_level RISK_THRESHOLDS_low RISK_THRESHOLDS_medium
      (72/100) = "High" := by
    norm_num [determine_risk_level, RISK_THRESHOLDS_low, RISK_THRESHOLDS_medium]
  have hconf : calculate_confidence (72/100) = 56/100 := by
    rw [calculate_confidence, abs_of_nonpos (by norm_num)]
    norm_num
  unfold predict_core
  rw [c4_factors_eval]
  show Except.ok (determine_risk_level RISK_THRESHOLDS_low RISK_THRESHOLDS_medium
      (72/100), calculate_confidence (72/100), c4_factors,
      generate_recommendations c4_factors (72/100)) = _
  rw [hrisk, hconf, c4_recs_eval]

/-- Counterexample for C4: at the scenario record with a stub model
returning probability 0.72, the confidence score is 0.56 — not the claimed
0.44 (`1 - 2*|0.5 - 0.72| = 0.56`) — and the high-priority bucket contains
the un-prefixed general recommendation "Schedule immediate follow-up", so
not every string in it carries the urgency marker. -/
theorem c4_counterexample :
    predict_core (72/100) (get_feature_importances false none none) scenario_record =
      Except.ok ("High", 56/100, c4_factors,
        (⟨c4_urgent ++ general_recs "High", [], []⟩ : Recs)) ∧
    (56 : ℚ)/100 ≠ 44/100 ∧
    "Schedule immediate follow-up" ∈ c4_urgent ++ general_recs "High" ∧
    hasUrgentMarker "Schedule immediate follow-up" = false := by
  refine ⟨c4_pipeline_eval, by norm_num, by decide, by decide⟩

/-- C4 (amended): the scenario record with a stub model returning
probability 0.72 yields risk_tier High and confidence 0.56; every
per-factor recommendation in the high-priority bucket is prefixed with
"URGENT: ", while the five general High-tier recommendations appended after
them are not. -/
theorem c4_scenario :
    predict_core (72/100) (get_feature_importances false none none) scenario_record =
      Except.ok ("High", 56/100, c4_factors,
        (⟨c4_urgent ++ general_recs "High", [], []⟩ : Recs)) ∧
    c4_urgent.all (fun s => hasUrgentMarker s) = true ∧
    (general_recs "High").all (fun s => !(hasUrgentMarker s)) = true := by
  refine ⟨c4_pipeline_eval, by decide, by decide⟩

end Hospital
